import Mathlib

/-!
Verification of the Bitcoin dashboard engine (src/app.py) against its
specification.  The script is embedded shallowly: fiat and BTC amounts are
rationals (the spec mandates exact decimal arithmetic until display), dates
are integers (a parsed timestamp), and the partial parsing step is an
Option.  Division by zero on ℚ is the usual total convention (result 0);
where a claim turns on whether a division is even reached, the embedding
exposes the denominator so the theorems can speak about it directly.
-/

namespace BtcDashboard

/-- A raw CSV row as uploaded (before `pd.to_datetime` on line 43 of
src/app.py).  `rawDate` is the outcome of attempting to parse the Date
field: `none` models a non-parseable date, on which `pd.to_datetime`
raises, aborting the whole batch. -/
structure RawRecord where
  rawDate : Option Int
  txType : String
  assetCredited : String
  amountCredited : ℚ
  bookCost : ℚ
  buySellRate : ℚ
deriving Repr, DecidableEq

/-- A row after the Date column has been parsed (line 43). -/
structure ParsedRecord where
  date : Int
  txType : String
  assetCredited : String
  amountCredited : ℚ
  bookCost : ℚ
  buySellRate : ℚ
deriving Repr, DecidableEq

/-- Line 43: `df['Date'] = pd.to_datetime(df['Date'])`.  A single
non-parseable date raises, so the whole batch yields no result. -/
def parseDates : List RawRecord → Option (List ParsedRecord)
  | [] => some []
  | r :: rs =>
    match r.rawDate, parseDates rs with
    | some d, some ps =>
        some ({ date := d, txType := r.txType, assetCredited := r.assetCredited,
                amountCredited := r.amountCredited, bookCost := r.bookCost,
                buySellRate := r.buySellRate } :: ps)
    | _, _ => none

/-- The row predicate of line 46: `Type == 'Buy' and Asset Credited == 'BTC'`. -/
def isBtcBuy (r : ParsedRecord) : Bool :=
  r.txType == "Buy" && r.assetCredited == "BTC"

/-- Line 46: `btc_buys = df[(df['Type'] == 'Buy') & (df['Asset Credited'] == 'BTC')]`. -/
def btc_buys (rs : List ParsedRecord) : List ParsedRecord :=
  rs.filter isBtcBuy

/-- Line 52: `total_btc_purchased = btc_buys['Amount Credited'].sum()`. -/
def total_btc_purchased (rs : List ParsedRecord) : ℚ :=
  ((btc_buys rs).map (fun r => r.amountCredited)).sum

/-- Line 53: `total_cad_spent = btc_buys['Book Cost'].sum()`. -/
def total_cad_spent (rs : List ParsedRecord) : ℚ :=
  ((btc_buys rs).map (fun r => r.bookCost)).sum

/-- The numeric quantities computed on lines 52-60 of src/app.py once
`len(btc_buys) > 0`. -/
structure Metrics where
  total_btc_purchased : ℚ
  total_cad_spent : ℚ
  average_buy_price : ℚ
  total_sats : ℚ
  current_value_cad : ℚ
  unrealized_gain_cad : ℚ
  unrealized_gain_pct : ℚ
  num_purchases : ℕ
deriving Repr, DecidableEq

/-- Lines 48-60: after filtering, the script warns and computes nothing when
`len(btc_buys) == 0`; otherwise it computes the summary metrics.  `price` is
the externally fetched `current_price_cad` (line 22); the script applies no
validation to it.  In Python the two divisions (lines 54 and 60) are
unguarded float divisions; here they are the total division on ℚ, and their
denominators are exposed as fields so theorems can speak about them. -/
def computeMetrics (price : ℚ) (rs : List ParsedRecord) : Option Metrics :=
  let buys := btc_buys rs
  if buys.length = 0 then none
  else
    let totalBtc := total_btc_purchased rs
    let totalCad := total_cad_spent rs
    some { total_btc_purchased := totalBtc
           total_cad_spent := totalCad
           average_buy_price := totalCad / totalBtc
           total_sats := totalBtc * 100000000
           current_value_cad := totalBtc * price
           unrealized_gain_cad := totalBtc * price - totalCad
           unrealized_gain_pct := (totalBtc * price - totalCad) / totalCad * 100
           num_purchases := buys.length }

/-- Lines 91-93: the taxable-gain line is printed only when
`unrealized_gain_cad > 0`, as `unrealized_gain_cad * 0.5`. -/
def capital_gain_50pct (gain : ℚ) : Option ℚ :=
  if 0 < gain then some (gain * (1 / 2)) else none

/-- Lines 95-96: otherwise the full loss magnitude `abs(unrealized_gain_cad)`
is printed as the unrealized capital loss. -/
def unrealized_capital_loss (gain : ℚ) : Option ℚ :=
  if 0 < gain then none else some |gain|

/-- The numeric values interpolated into the downloadable tax summary text
(lines 148-169), in the order they appear in the f-string.  Every field is
the script variable reused verbatim, except the last: line 166 recomputes
`unrealized_gain_cad * 0.5` unconditionally, bypassing the sign split of
lines 91-96. -/
structure TaxSummaryFigures where
  total_btc_purchased : ℚ
  total_cad_invested : ℚ
  average_cost_basis : ℚ
  num_transactions : ℕ
  current_btc_price : ℚ
  current_portfolio_value : ℚ
  unrealized_gain : ℚ
  unrealized_gain_pct : ℚ
  adjusted_cost_base : ℚ
  fair_market_value : ℚ
  capital_gain_50pct_line : ℚ
deriving Repr, DecidableEq

/-- Lines 148-169: the `tax_summary` f-string, reduced to its numeric
content. -/
def tax_summary (price : ℚ) (m : Metrics) : TaxSummaryFigures :=
  { total_btc_purchased := m.total_btc_purchased
    total_cad_invested := m.total_cad_spent
    average_cost_basis := m.average_buy_price
    num_transactions := m.num_purchases
    current_btc_price := price
    current_portfolio_value := m.current_value_cad
    unrealized_gain := m.unrealized_gain_cad
    unrealized_gain_pct := m.unrealized_gain_pct
    adjusted_cost_base := m.total_cad_spent
    fair_market_value := m.current_value_cad
    capital_gain_50pct_line := m.unrealized_gain_cad * (1 / 2) }

/-- Ascending date order between rows. -/
def dateLe (a b : ParsedRecord) : Prop := a.date ≤ b.date

/-- Descending date order between rows. -/
def dateGe (a b : ParsedRecord) : Prop := b.date ≤ a.date

instance : DecidableRel dateLe := fun a b => Int.decLe a.date b.date

instance : DecidableRel dateGe := fun a b => Int.decLe b.date a.date

instance : IsTotal ParsedRecord dateLe := ⟨fun a b => Int.le_total a.date b.date⟩

instance : IsTrans ParsedRecord dateLe := ⟨fun _ _ _ hab hbc => le_trans hab hbc⟩

instance : IsTotal ParsedRecord dateGe := ⟨fun a b => Int.le_total b.date a.date⟩

instance : IsTrans ParsedRecord dateGe := ⟨fun _ _ _ hab hbc => le_trans hbc hab⟩

/-- Line 105: `display_df = display_df.sort_values('Date', ascending=False)`,
the transaction-history table, sorted by date descending. -/
def display_df (rs : List ParsedRecord) : List ParsedRecord :=
  List.insertionSort dateGe (btc_buys rs)

/-- Line 124: `buys_sorted = btc_buys.sort_values('Date')`, the chart data,
sorted by date ascending. -/
def buys_sorted (rs : List ParsedRecord) : List ParsedRecord :=
  List.insertionSort dateLe (btc_buys rs)

/-- First purchase of the end-to-end example of spec §8: qty 0.01 BTC for
600 CAD. -/
def buy1 : ParsedRecord :=
  { date := 1, txType := "Buy", assetCredited := "BTC",
    amountCredited := 1 / 100, bookCost := 600, buySellRate := 60000 }

/-- Second purchase of the end-to-end example of spec §8: qty 0.02 BTC for
1300 CAD. -/
def buy2 : ParsedRecord :=
  { date := 2, txType := "Buy", assetCredited := "BTC",
    amountCredited := 1 / 50, bookCost := 1300, buySellRate := 65000 }

/-- The end-to-end example batch of spec §8. -/
def exBatch : List ParsedRecord := [buy1, buy2]

/-- The example batch with the two purchases swapped (later date first). -/
def exBatchSwapped : List ParsedRecord := [buy2, buy1]

/-- The metrics the script computes on the example batch at price 80000. -/
def exMetrics : Metrics :=
  { total_btc_purchased := 3 / 100
    total_cad_spent := 1900
    average_buy_price := 190000 / 3
    total_sats := 3000000
    current_value_cad := 2400
    unrealized_gain_cad := 500
    unrealized_gain_pct := 500 / 19
    num_purchases := 2 }

/-- A BTC buy with negative credited quantity: invalid per the spec's data
model, but it passes the line-46 filter untouched. -/
def negQtyRecord : ParsedRecord :=
  { date := 1, txType := "Buy", assetCredited := "BTC",
    amountCredited := -1, bookCost := 50, buySellRate := 0 }

/-- A raw row whose Date field does not parse. -/
def badDateRecord : RawRecord :=
  { rawDate := none, txType := "Buy", assetCredited := "BTC",
    amountCredited := 1, bookCost := 10, buySellRate := 10 }

/-- A buy bought at a price that later halved: at market price 50000 the
position shows a 500 CAD unrealized loss. -/
def lossBuy : ParsedRecord :=
  { date := 1, txType := "Buy", assetCredited := "BTC",
    amountCredited := 1 / 100, bookCost := 1000, buySellRate := 100000 }

/-- A valid buy with zero book cost (cost_fiat = 0 is allowed, being ≥ 0). -/
def zeroCostBuy : ParsedRecord :=
  { date := 1, txType := "Buy", assetCredited := "BTC",
    amountCredited := 1, bookCost := 0, buySellRate := 0 }

/-- Modelled from the spec: the Fee-Aware Withdrawal Optimizer (§4.4) does
not exist under src/ (src/app.py contains no fee or withdrawal code), so its
data model is taken from the words of spec §3 and §4.4.  A named fee tier
with a rate in fee-units per size-unit. -/
structure FeeTier where
  name : String
  rate : ℚ
deriving Repr, DecidableEq

/-- Modelled from the spec: §3, NetworkFeeSnapshot — an ordered list of fee
tiers plus a congestion indicator. -/
structure NetworkFeeSnapshot where
  tiers : List FeeTier
  congestion : ℚ
deriving Repr, DecidableEq

/-- Modelled from the spec: §3, WithdrawalPlan — requested amount, estimated
fee and net amount in integer smallest units, plus a qualitative ETA label. -/
structure WithdrawalPlan where
  requested_amount : ℤ
  estimated_fee : ℤ
  net_amount : ℤ
  eta_tier : String
deriving Repr, DecidableEq

/-- Modelled from the spec: §7 error kinds relevant to the optimizer. -/
inductive PlanError where
  | InsufficientAmountForFee
  | NoFeeTier
deriving Repr, DecidableEq

/-- Modelled from the spec: §4.4 tier selection — the default urgency
preference picks the cheapest tier (lowest rate). -/
def selectTier (snap : NetworkFeeSnapshot) : Option FeeTier :=
  match snap.tiers with
  | [] => none
  | t :: ts => some (ts.foldl (fun best u => if u.rate < best.rate then u else best) t)

/-- Modelled from the spec: §4.4, `estimated_fee = estimatedTxSizeUnits *
selected_tier.rate`, rounded up to the nearest whole smallest unit. -/
def estimated_fee (size : ℕ) (t : FeeTier) : ℤ :=
  ⌈(size : ℚ) * t.rate⌉

/-- Modelled from the spec: §4.4, `plan(requestedAmount, feeSnapshot,
estimatedTxSizeUnits)`.  `net_amount = requestedAmount - estimated_fee`; a
negative net amount is a validation failure signalled to the caller, never a
clamped plan.  The qualitative ETA label is the selected tier name (the
congestion-downgrade logic is irrelevant to the claims checked here). -/
def plan (requested : ℤ) (snap : NetworkFeeSnapshot) (size : ℕ) :
    Except PlanError WithdrawalPlan :=
  match selectTier snap with
  | none => Except.error PlanError.NoFeeTier
  | some t =>
    let fee := estimated_fee size t
    if requested - fee < 0 then Except.error PlanError.InsufficientAmountForFee
    else Except.ok { requested_amount := requested, estimated_fee := fee,
                     net_amount := requested - fee, eta_tier := t.name }

/-- The example fee snapshot of spec §8 (economy rate 5), padded to the two
tiers §6 requires. -/
def snapEx : NetworkFeeSnapshot :=
  { tiers := [{ name := "economy", rate := 5 }, { name := "standard", rate := 12 }],
    congestion := 100 }

/-- The tier `selectTier` picks from `snapEx`. -/
def econTier : FeeTier := { name := "economy", rate := 5 }

end BtcDashboard

namespace BtcDashboard

/-- Helper: the metrics branch taken when the filtered list is non-empty,
with every field spelled out. -/
theorem computeMetrics_eq_some (price : ℚ) (rs : List ParsedRecord)
    (h : ¬ (btc_buys rs).length = 0) :
    computeMetrics price rs = some
      { total_btc_purchased := total_btc_purchased rs
        total_cad_spent := total_cad_spent rs
        average_buy_price := total_cad_spent rs / total_btc_purchased rs
        total_sats := total_btc_purchased rs * 100000000
        current_value_cad := total_btc_purchased rs * price
        unrealized_gain_cad := total_btc_purchased rs * price - total_cad_spent rs
        unrealized_gain_pct :=
          (total_btc_purchased rs * price - total_cad_spent rs) / total_cad_spent rs * 100
        num_purchases := (btc_buys rs).length } := by
  rw [computeMetrics]
  exact if_neg h

/-- Helper: no metrics are computed when the filtered list is empty. -/
theorem computeMetrics_eq_none (price : ℚ) (rs : List ParsedRecord)
    (h : btc_buys rs = []) :
    computeMetrics price rs = none := by
  rw [computeMetrics, h]
  rfl

/-- Helper: a single raw row with a non-parseable date makes the whole
parse step fail. -/
theorem parseDates_none (raws : List RawRecord) (b : RawRecord)
    (hb : b ∈ raws) (hd : b.rawDate = none) : parseDates raws = none := by
  induction raws with
  | nil => exact absurd hb (List.not_mem_nil b)
  | cons a as ih =>
    rcases List.mem_cons.1 hb with rfl | hmem
    · rw [parseDates, hd]
    · rw [parseDates, ih hmem]
      cases a.rawDate <;> rfl

/-- C1: the taxable figure printed by the tax section equals
max(gain, 0) * inclusion rate (0.5) when the gain is positive, and for a
negative gain the full loss magnitude is reported with no inclusion rate
applied. -/
theorem C1_taxable_amount (gain : ℚ) :
    (0 < gain →
      capital_gain_50pct gain = some (max gain 0 * (1 / 2)) ∧
      unrealized_capital_loss gain = none) ∧
    (gain < 0 →
      unrealized_capital_loss gain = some (-gain) ∧
      capital_gain_50pct gain = none) := by
  constructor
  · intro h
    rw [capital_gain_50pct, unrealized_capital_loss, if_pos h, if_pos h]
    rw [max_eq_left h.le]
    exact ⟨rfl, rfl⟩
  · intro h
    rw [capital_gain_50pct, unrealized_capital_loss, if_neg (not_lt.2 h.le),
      if_neg (not_lt.2 h.le), abs_of_neg h]
    exact ⟨rfl, rfl⟩

/-- Witness for C1 at gain 10 (a gain) and gain -4 (a loss). -/
theorem C1_taxable_amount_witness :
    (capital_gain_50pct 10 = some (max 10 0 * (1 / 2)) ∧
      unrealized_capital_loss 10 = none) ∧
    (unrealized_capital_loss (-4) = some (-(-4)) ∧
      capital_gain_50pct (-4) = none) :=
  ⟨(C1_taxable_amount 10).1 (by norm_num), (C1_taxable_amount (-4)).2 (by norm_num)⟩

/-- C3: over valid purchases (every quantity positive), the script reports
no average cost basis when the total quantity is zero, and otherwise the
average cost basis is exactly total cost over total quantity. -/
theorem C3_average_cost_basis (price : ℚ) (rs : List ParsedRecord)
    (hq : ∀ r ∈ rs, 0 < r.amountCredited) :
    (total_btc_purchased rs = 0 → computeMetrics price rs = none) ∧
    (0 < total_btc_purchased rs →
      ∃ m, computeMetrics price rs = some m ∧
        m.average_buy_price = total_cad_spent rs / total_btc_purchased rs) := by
  constructor
  · intro h0
    rcases hb : btc_buys rs with _ | ⟨r, tl⟩
    · exact computeMetrics_eq_none price rs hb
    · exfalso
      have hpos : 0 < total_btc_purchased rs := by
        refine List.sum_pos _ ?_ ?_
        · intro x hx
          rcases List.mem_map.1 hx with ⟨s, hs, rfl⟩
          exact hq s (List.mem_of_mem_filter hs)
        · rw [hb]
          simp
      exact absurd h0 (ne_of_gt hpos)
  · intro hpos
    have hne : ¬ (btc_buys rs).length = 0 := by
      intro hlen
      rw [List.length_eq_zero] at hlen
      rw [total_btc_purchased, hlen] at hpos
      simp at hpos
    exact ⟨_, computeMetrics_eq_some price rs hne, rfl⟩

/-- Witness for C3: the spec §8 example batch has positive quantities and
positive total, and its average cost basis is the exact quotient. -/
theorem C3_average_cost_basis_witness :
    ∃ m, computeMetrics 80000 exBatch = some m ∧
      m.average_buy_price = total_cad_spent exBatch / total_btc_purchased exBatch :=
  (C3_average_cost_basis 80000 exBatch
      (by norm_num [exBatch, buy1, buy2])).2
    (by norm_num [total_btc_purchased, btc_buys, isBtcBuy, exBatch, buy1, buy2])

/-- C4: the totals are the sums of the filtered purchases' book costs and
credited quantities, and both are invariant under permutation of the input
batch. -/
theorem C4_totals_permutation (l l' : List ParsedRecord) (h : l.Perm l') :
    total_cad_spent l = ((btc_buys l).map (fun r => r.bookCost)).sum ∧
    total_btc_purchased l = ((btc_buys l).map (fun r => r.amountCredited)).sum ∧
    total_cad_spent l = total_cad_spent l' ∧
    total_btc_purchased l = total_btc_purchased l' := by
  refine ⟨rfl, rfl, ?_, ?_⟩
  · exact ((h.filter isBtcBuy).map (fun r => r.bookCost)).sum_eq
  · exact ((h.filter isBtcBuy).map (fun r => r.amountCredited)).sum_eq

/-- Witness for C4: the example batch against its swapped ordering. -/
theorem C4_totals_permutation_witness :
    total_cad_spent exBatchSwapped =
      ((btc_buys exBatchSwapped).map (fun r => r.bookCost)).sum ∧
    total_btc_purchased exBatchSwapped =
      ((btc_buys exBatchSwapped).map (fun r => r.amountCredited)).sum ∧
    total_cad_spent exBatchSwapped = total_cad_spent exBatch ∧
    total_btc_purchased exBatchSwapped = total_btc_purchased exBatch :=
  C4_totals_permutation exBatchSwapped exBatch (List.Perm.swap buy1 buy2 [])

/-- C5: whenever the script produces metrics at a positive price, the
current value is quantity times price and the unrealized gain is value minus
cost; on the spec §8 example batch at price 80000 the value is 2400 and the
gain 500. -/
theorem C5_valuation (price : ℚ) (rs : List ParsedRecord) (m : Metrics)
    (hp : 0 < price) (hm : computeMetrics price rs = some m) :
    m.current_value_cad = m.total_btc_purchased * price ∧
    m.unrealized_gain_cad = m.current_value_cad - m.total_cad_spent ∧
    computeMetrics 80000 exBatch = some exMetrics ∧
    exMetrics.current_value_cad = 2400 ∧
    exMetrics.unrealized_gain_cad = 500 := by
  have hex : computeMetrics 80000 exBatch = some exMetrics := by
    rw [computeMetrics_eq_some 80000 exBatch (by norm_num [btc_buys, isBtcBuy, exBatch, buy1, buy2])]
    norm_num [total_btc_purchased, total_cad_spent, btc_buys, isBtcBuy,
      exBatch, buy1, buy2, exMetrics, Metrics.mk.injEq]
  by_cases hlen : (btc_buys rs).length = 0
  · rw [computeMetrics_eq_none price rs (List.length_eq_zero.1 hlen)] at hm
    cases hm
  · rw [computeMetrics_eq_some price rs hlen] at hm
    rcases Option.some.inj hm with rfl
    exact ⟨rfl, by ring, hex, rfl, rfl⟩

/-- Witness for C5 at the spec §8 example batch and price 80000. -/
theorem C5_valuation_witness :
    exMetrics.current_value_cad = exMetrics.total_btc_purchased * 80000 ∧
    exMetrics.unrealized_gain_cad =
      exMetrics.current_value_cad - exMetrics.total_cad_spent ∧
    computeMetrics 80000 exBatch = some exMetrics ∧
    exMetrics.current_value_cad = 2400 ∧
    exMetrics.unrealized_gain_cad = 500 :=
  C5_valuation 80000 exBatch exMetrics (by norm_num)
    (by rw [computeMetrics_eq_some 80000 exBatch
          (by norm_num [btc_buys, isBtcBuy, exBatch, buy1, buy2])]
        norm_num [total_btc_purchased, total_cad_spent, btc_buys, isBtcBuy,
          exBatch, buy1, buy2, exMetrics, Metrics.mk.injEq])

/-- C2 (failing input): on a position bought for 1000 CAD at market price
50000 (unrealized loss of 500), line 166 of the download text prints
gain * 0.5 = -250 as the capital-gain figure, while the tax rule of lines
91-96 reports the full loss 500 and no taxable gain.  The download figure
does not equal the structured figure. -/
theorem C2_download_diverges :
    ∃ m, computeMetrics 50000 [lossBuy] = some m ∧
      m.unrealized_gain_cad = -500 ∧
      (tax_summary 50000 m).capital_gain_50pct_line = -250 ∧
      unrealized_capital_loss m.unrealized_gain_cad = some 500 ∧
      capital_gain_50pct m.unrealized_gain_cad = none := by
  refine ⟨_, computeMetrics_eq_some 50000 [lossBuy]
      (by norm_num [btc_buys, isBtcBuy, lossBuy]), ?_, ?_, ?_, ?_⟩ <;>
    norm_num [total_btc_purchased, total_cad_spent, btc_buys, isBtcBuy,
      lossBuy, tax_summary, unrealized_capital_loss, capital_gain_50pct]

/-- C6 (counterexample): at the non-positive price -1, the script still
produces a valuation on the example batch instead of failing. -/
theorem C6_counterexample : computeMetrics (-1) exBatch ≠ none := by
  rw [computeMetrics_eq_some (-1) exBatch
      (by norm_num [btc_buys, isBtcBuy, exBatch, buy1, buy2])]
  exact Option.some_ne_none _

/-- C6 (amended): the script never validates the market price: for any
price, including any price ≤ 0, a non-empty filtered batch still yields a
valuation, with current value equal to total quantity times that price. -/
theorem C6_no_price_validation (price : ℚ) (rs : List ParsedRecord)
    (hp : price ≤ 0) (hne : btc_buys rs ≠ []) :
    ∃ m, computeMetrics price rs = some m ∧
      m.current_value_cad = total_btc_purchased rs * price := by
  refine ⟨_, computeMetrics_eq_some price rs ?_, rfl⟩
  intro hlen
  exact hne (List.length_eq_zero.1 hlen)

/-- Witness for C6 (amended) at price -1 on the example batch. -/
theorem C6_no_price_validation_witness :
    ∃ m, computeMetrics (-1) exBatch = some m ∧
      m.current_value_cad = total_btc_purchased exBatch * (-1) :=
  C6_no_price_validation (-1) exBatch (by norm_num)
    (by rw [show btc_buys exBatch = [buy1, buy2] from rfl]
        exact List.cons_ne_nil buy1 [buy2])

/-- C7 (counterexample): a BTC buy with credited quantity -1 is kept by the
filter and contributes its negative quantity to the total, so a record with
non-positive quantity is not dropped. -/
theorem C7_counterexample :
    btc_buys [negQtyRecord] = [negQtyRecord] ∧
    total_btc_purchased [negQtyRecord] = -1 := by
  constructor
  · rfl
  · norm_num [total_btc_purchased, btc_buys, isBtcBuy, negQtyRecord]

/-- C7 (amended): the filter drops only rows failing the Buy/BTC test; a
row that passes it is kept even with non-positive quantity, and a single
non-parseable date is fatal to the whole batch rather than dropped. -/
theorem C7_normalizer (rs : List ParsedRecord) (r : ParsedRecord)
    (hr : r ∈ rs) (hq : r.amountCredited ≤ 0) (hf : isBtcBuy r = true)
    (raws : List RawRecord) (b : RawRecord) (hb : b ∈ raws)
    (hd : b.rawDate = none) :
    r ∈ btc_buys rs ∧
    (∀ s ∈ rs, isBtcBuy s = false → s ∉ btc_buys rs) ∧
    parseDates raws = none := by
  refine ⟨List.mem_filter.2 ⟨hr, hf⟩, ?_, parseDates_none raws b hb hd⟩
  intro s _ hs hmem
  rw [(List.mem_filter.1 hmem).2] at hs
  cases hs

/-- Witness for C7 (amended): the quantity -1 record in a singleton batch,
and a singleton raw batch whose only date does not parse. -/
theorem C7_normalizer_witness :
    negQtyRecord ∈ btc_buys [negQtyRecord] ∧
    (∀ s ∈ [negQtyRecord], isBtcBuy s = false → s ∉ btc_buys [negQtyRecord]) ∧
    parseDates [badDateRecord] = none :=
  C7_normalizer [negQtyRecord] negQtyRecord (List.mem_singleton.2 rfl)
    (by norm_num [negQtyRecord]) (by rfl)
    [badDateRecord] badDateRecord (List.mem_singleton.2 rfl) rfl

/-- C8 (counterexample): with the later purchase first in the CSV, the
filtered sequence keeps the source order, dates 2 then 1, which is not
sorted by timestamp ascending. -/
theorem C8_counterexample :
    btc_buys exBatchSwapped = [buy2, buy1] ∧
    ¬ List.Sorted dateLe (btc_buys exBatchSwapped) := by
  constructor
  · rfl
  · intro hs
    have h12 : dateLe buy2 buy1 := by
      have : List.Sorted dateLe [buy2, buy1] := hs
      exact (List.sorted_cons.1 this).1 buy1 (List.mem_singleton.2 rfl)
    rw [dateLe] at h12
    norm_num [buy1, buy2] at h12

/-- C8 (amended): the filtering step itself applies no sort, so its output
is a sublist of the input in source order; ascending date order appears only
in the cumulative-chart data, and the displayed history table is sorted by
date descending. -/
theorem C8_order (rs : List ParsedRecord) :
    (btc_buys rs).Sublist rs ∧
    List.Sorted dateLe (buys_sorted rs) ∧
    List.Sorted dateGe (display_df rs) :=
  ⟨List.filter_sublist rs,
   List.sorted_insertionSort dateLe (btc_buys rs),
   List.sorted_insertionSort dateGe (btc_buys rs)⟩

/-- C9: whenever the requested amount is below the (rounded-up) estimated
fee of the selected tier, planning fails with InsufficientAmountForFee, and
every plan the optimizer does return has a non-negative, unclamped net
amount equal to requested minus fee. -/
theorem C9_plan_insufficient (requested : ℤ) (snap : NetworkFeeSnapshot)
    (size : ℕ) (t : FeeTier) (ht : selectTier snap = some t)
    (hlt : requested < estimated_fee size t) :
    plan requested snap size = Except.error PlanError.InsufficientAmountForFee ∧
    (∀ req : ℤ, ∀ p : WithdrawalPlan, plan req snap size = Except.ok p →
      0 ≤ p.net_amount ∧
      p.net_amount = req - p.estimated_fee ∧
      p.requested_amount = req ∧
      p.estimated_fee = estimated_fee size t) := by
  constructor
  · rw [plan, ht]
    exact if_pos (sub_neg.2 hlt)
  · intro req p hp
    simp only [plan, ht] at hp
    by_cases hc : req - estimated_fee size t < 0
    · rw [if_pos hc] at hp
      cases hp
    · rw [if_neg hc] at hp
      injection hp with h
      subst h
      exact ⟨not_lt.1 hc, rfl, rfl, rfl⟩

/-- Witness for C9 at the spec §8 example: requested 1000, economy rate 5,
size 250, so the fee 1250 exceeds the requested amount. -/
theorem C9_plan_insufficient_witness :
    plan 1000 snapEx 250 = Except.error PlanError.InsufficientAmountForFee ∧
    (∀ req : ℤ, ∀ p : WithdrawalPlan, plan req snapEx 250 = Except.ok p →
      0 ≤ p.net_amount ∧
      p.net_amount = req - p.estimated_fee ∧
      p.requested_amount = req ∧
      p.estimated_fee = estimated_fee 250 econTier) :=
  C9_plan_insufficient 1000 snapEx 250 econTier
    (by norm_num [selectTier, snapEx, econTier])
    (by norm_num [estimated_fee, econTier])

/-- C10: there is a non-empty batch of data-model-valid purchases (positive
quantity, non-negative cost) that all pass the filter, whose total book cost
is zero, and on which the script still computes the metrics, so the
percentage division on line 60 runs with a zero denominator (and a nonzero
numerator). -/
theorem C10_pct_zero_denominator :
    ∃ rs : List ParsedRecord,
      (∀ r ∈ rs, 0 < r.amountCredited ∧ 0 ≤ r.bookCost ∧ isBtcBuy r = true) ∧
      btc_buys rs ≠ [] ∧
      ∃ m, computeMetrics 80000 rs = some m ∧
        m.total_cad_spent = 0 ∧
        m.unrealized_gain_cad = 80000 := by
  refine ⟨[zeroCostBuy], ?_, ?_, _,
    computeMetrics_eq_some 80000 [zeroCostBuy]
      (by norm_num [btc_buys, isBtcBuy, zeroCostBuy]), ?_, ?_⟩
  · intro r hr
    rw [List.mem_singleton.1 hr]
    refine ⟨by norm_num [zeroCostBuy], by norm_num [zeroCostBuy], rfl⟩
  · norm_num [btc_buys, isBtcBuy, zeroCostBuy]
  · norm_num [total_cad_spent, btc_buys, isBtcBuy, zeroCostBuy]
  · norm_num [total_btc_purchased, total_cad_spent, btc_buys, isBtcBuy, zeroCostBuy]

end BtcDashboard
